import Mathlib

/-!
Verification development for the Backend-leads repository.

The definitions below are shallow embeddings of the TypeScript route handlers
under src/app/api (lead-search/route.ts, apollo-webhook/route.ts and the
latest revision of enrich/route.ts).  JavaScript conventions are modelled
explicitly:

* an optional / possibly `undefined` field is an `Option`;
* JS truthiness of a string value is `strTruthy` (present and nonempty);
* `a || b` on strings is `jsOrElse`;
* machine numbers that the code only ever uses as non-negative counters
  (page numbers, result caps, lengths) are `Nat`;
* the remote Apollo search API is a function from a page number to
  `Option (List _)`, where `none` models a non-ok HTTP response and
  `some l` models an ok response whose `organizations` / `people` field
  is `l`;
* the Supabase row store appears only through its observable behaviour
  (the stored checkpoint value, the column schema of the target table).

`set_option maxRecDepth` is raised for kernel evaluation of concrete runs.
-/

set_option maxRecDepth 4000

/-- Truthiness of a JS string-or-undefined value: present and nonempty. -/
def strTruthy : Option String → Bool
  | some s => s != ""
  | none => false

/-- The value a JS conditional assignment keeps: the field itself when truthy,
otherwise absent. -/
def truthyOpt (o : Option String) : Option String :=
  if strTruthy o then o else none

/-- JS `a || b` on string-or-undefined values. -/
def jsOrElse (a b : Option String) : Option String :=
  if strTruthy a then a else b

/-- Truthiness of a JS number-or-undefined value: present and nonzero. -/
def natTruthy : Option Nat → Bool
  | some n => n != 0
  | none => false

/-- Containment of a character list inside another. -/
def listContainsSub (needle : List Char) : List Char → Bool
  | [] => needle.isEmpty
  | c :: rest => needle.isPrefixOf (c :: rest) || listContainsSub needle rest

/-- JS `String.prototype.includes`: substring containment. -/
def jsIncludes (s sub : String) : Bool :=
  listContainsSub sub.toList s.toList

/-- JS `String.prototype.trim`: strip whitespace from both ends (defined on
character lists so concrete runs evaluate inside the kernel). -/
def jsTrim (s : String) : String :=
  String.mk (((s.toList.dropWhile Char.isWhitespace).reverse.dropWhile
    Char.isWhitespace).reverse)

/-- JS `String.prototype.toLowerCase` (ASCII, which covers the literal
`mobile` comparisons the code performs). -/
def jsToLower (s : String) : String :=
  String.mk (s.toList.map Char.toLower)

/- ------------------------------------------------------------------
   src/app/api/lead-search/route.ts
   ------------------------------------------------------------------ -/

/-- An organization record of the remote company search
(interface `ApolloCompany` in lead-search/route.ts). -/
structure ApolloCompany where
  id : String
  name : String
  primary_domain : String
deriving DecidableEq

/-- A person record of the remote people search
(interface `ApolloPerson` in lead-search/route.ts, with the nested
organization name flattened). -/
structure SearchPerson where
  id : String
  first_name : String
  last_name : String
  email : String
  linkedin_url : String
  organization_name : String
  title : String
deriving DecidableEq

/-- Lines 91-105 of lead-search/route.ts: the starting company page.
`stored` is the `last_company_page` of the `search_progress` row for
`(user_id, filters_hash)`, or `none` when no row exists. -/
def companyStartPage : Option Nat → Nat
  | some lastPage => lastPage + 1
  | none => 1

/-- The `while` loop of `fetchCompanies` (lines 215-263).  `api page` is the
remote response for that page (`none` = non-ok response or fetch error, both
of which `break`).  The loop also breaks on an empty page, and the fuel
models the safety break `if (page > filters.start_page + 10) break`, which
allows at most 11 pages per invocation; the top-level caller passes fuel 11.
`last` carries `lastPageFetched`. -/
def fetchCompaniesGo (api : Nat → Option (List ApolloCompany)) (maxCompanies : Nat)
    (fuel page : Nat) (acc : List ApolloCompany) (last : Nat) :
    List ApolloCompany × Nat :=
  if acc.length < maxCompanies then
    match fuel with
    | 0 => (acc, last)
    | fuel' + 1 =>
      match api page with
      | none => (acc, last)
      | some newCompanies =>
        if newCompanies.length = 0 then (acc, last)
        else fetchCompaniesGo api maxCompanies fuel' (page + 1) (acc ++ newCompanies) page
  else (acc, last)

/-- `fetchCompanies` (lines 198-266).  Note `filters.max_results || 100`:
a zero cap silently becomes 100.  Returns the cap-truncated accumulated
organizations and `lastPageFetched`, initialised to `start_page - 1`. -/
def fetchCompanies (api : Nat → Option (List ApolloCompany))
    (max_results start_page : Nat) : List ApolloCompany × Nat :=
  let maxCompanies := if max_results = 0 then 100 else max_results
  let r := fetchCompaniesGo api maxCompanies 11 start_page [] (start_page - 1)
  (r.1.take maxCompanies, r.2)

/-- The `while` loop of `fetchPeople` (lines 282-329); the fuel models the
safety break `if (page > 10) break` (pages start at 1, so at most 10 pages),
and the explicit `if (people.length >= filters.max_results) break` is
subsumed by the loop-head test. -/
def fetchPeopleGo (api : Nat → Option (List SearchPerson)) (max_results : Nat)
    (fuel page : Nat) (acc : List SearchPerson) : List SearchPerson :=
  if acc.length < max_results then
    match fuel with
    | 0 => acc
    | fuel' + 1 =>
      match api page with
      | none => acc
      | some newPeople =>
        if newPeople.length = 0 then acc
        else fetchPeopleGo api max_results fuel' (page + 1) (acc ++ newPeople)
  else acc

/-- `fetchPeople` (lines 268-332), for one organization-id chunk whose
page responses are `api`; ends with `people.slice(0, filters.max_results)`. -/
def fetchPeople (api : Nat → Option (List SearchPerson)) (max_results : Nat) :
    List SearchPerson :=
  (fetchPeopleGo api max_results 10 1 []).take max_results

/-- Lines 146-154: organization ids of the fetched companies, dropping empty
and blank ids, deduplicated keeping first occurrences (`new Set`). -/
def orgIdsOf (companies : List ApolloCompany) : List String :=
  ((companies.map (fun c => c.id)).filter
    (fun id => id != "" && jsTrim id != "")).eraseDups

/-- Lines 157-161: chunking the organization ids, `chunkSize = 25`. -/
def idChunks (ids : List String) : List (List String) :=
  if ids.isEmpty then [] else ids.take 25 :: idChunks (ids.drop 25)
termination_by ids.length
decreasing_by
  simp only [List.length_drop]
  rename_i h
  have h' : ids.length ≠ 0 := by
    simpa [List.isEmpty_iff_length_eq_zero] using h
  omega

/-- The chunk loop of the handler (lines 163-176): each chunk is fetched with
the remaining budget `max_results - allLeads.length`, and the loop breaks
once the budget is reached.  `api chunk` gives the page responses of the
people search scoped to that chunk. -/
def collectLeads (api : List String → Nat → Option (List SearchPerson))
    (max_results : Nat) : List (List String) → List SearchPerson → List SearchPerson
  | [], acc => acc
  | chunk :: rest, acc =>
    if max_results ≤ acc.length then acc
    else collectLeads api max_results rest
      (acc ++ fetchPeople (api chunk) (max_results - acc.length))

/-- The search pipeline of `POST` in lead-search/route.ts, from checkpoint
read to the aggregated lead list (persistence elided). -/
def leadSearchLeads (capi : Nat → Option (List ApolloCompany))
    (papi : List String → Nat → Option (List SearchPerson))
    (stored : Option Nat) (max_results : Nat) : List SearchPerson :=
  let start := companyStartPage stored
  let fc := fetchCompanies capi max_results start
  collectLeads papi max_results (idChunks (orgIdsOf fc.1)) []

/-- Lines 119-135 of the handler: the `search_progress` value for the key
after the invocation.  The upsert runs only when `lastPageFetched >= startPage`;
`upsertOk = false` models a failed upsert (logged, non-fatal), which leaves
the stored row unchanged. -/
def progressAfter (stored : Option Nat) (upsertOk : Bool)
    (capi : Nat → Option (List ApolloCompany)) (max_results : Nat) : Option Nat :=
  let start := companyStartPage stored
  let fc := fetchCompanies capi max_results start
  if start ≤ fc.2 then (if upsertOk then some fc.2 else stored) else stored

/- ------------------------------------------------------------------
   lead-search/route.ts, lines 77-89: the filter fingerprint
   ------------------------------------------------------------------ -/

/-- The request body of the search trigger (interface `LeadSearchRequest`).
Absent fields are `none` (JSON bodies omit them as `undefined`). -/
structure LeadSearchRequest where
  user_id : String
  industry_keywords : Option (List String)
  company_location : Option (List String)
  titles : Option (List String)
  seniorities : Option (List String)
  employee_ranges : Option (List String)
  max_results : Option Nat
deriving DecidableEq

/-- The object `filtersForHash` of lines 78-83: only the three company
filters are hashed. -/
structure FilterSubset where
  industry_keywords : Option (List String)
  company_location : Option (List String)
  employee_ranges : Option (List String)
deriving DecidableEq

/-- Lines 78-83: projection of the request onto the hashed filter subset. -/
def filtersForHash (r : LeadSearchRequest) : FilterSubset :=
  { industry_keywords := r.industry_keywords
    company_location := r.company_location
    employee_ranges := r.employee_ranges }

/-- JSON string escaping as performed by `JSON.stringify` (the characters the
hashed inputs can realistically contain; further control characters escape to
unicode sequences, which does not affect any property proved here). -/
def jsonEscapeChar (c : Char) : String :=
  if c = '"' then "\\\""
  else if c = '\\' then "\\\\"
  else if c = '\n' then "\\n"
  else if c = '\r' then "\\r"
  else if c = '\t' then "\\t"
  else String.singleton c

/-- A JSON string literal. -/
def jsonStringLit (s : String) : String :=
  "\"" ++ String.join (s.toList.map jsonEscapeChar) ++ "\""

/-- A JSON array of strings, as `JSON.stringify` prints it. -/
def jsonStringArray (l : List String) : String :=
  "[" ++ String.intercalate "," (l.map jsonStringLit) ++ "]"

/-- `JSON.stringify(filtersForHash)` (line 86): keys in insertion order
`industry_keywords`, `company_location`, `employee_ranges`; a key whose value
is `undefined` is omitted entirely. -/
def stringifyFiltersForHash (f : FilterSubset) : String :=
  let entries :=
    [("industry_keywords", f.industry_keywords),
     ("company_location", f.company_location),
     ("employee_ranges", f.employee_ranges)]
  let rendered := entries.filterMap
    (fun kv => kv.2.map (fun arr => jsonStringLit kv.1 ++ ":" ++ jsonStringArray arr))
  "\x7b" ++ String.intercalate "," rendered ++ "\x7d"

/-- Lines 84-87: the filters hash.  `crypto.createHash('md5')` is an external
pure function of the serialized string; it is modelled as the parameter `h`
(every property proved about the fingerprint holds for any such function,
in particular for MD5). -/
def filtersHash (h : String → String) (r : LeadSearchRequest) : String :=
  h (stringifyFiltersForHash (filtersForHash r))

/- ------------------------------------------------------------------
   src/app/api/apollo-webhook/route.ts and the current revision of
   src/app/api/enrich/route.ts: the provider person payload and the
   row-update maps
   ------------------------------------------------------------------ -/

/-- The sentinel Apollo returns for a locked email (`EMAIL_PLACEHOLDER`). -/
def EMAIL_PLACEHOLDER : String := "email_not_unlocked@apollo.io"

/-- An entry of a provider phone list.  All fields are optional in the raw
payload. -/
structure PhoneEntry where
  type : Option String
  type_cd : Option String
  sanitized_number : Option String
  number : Option String
  raw_number : Option String
deriving DecidableEq

/-- An entry of `person.emails`: either a bare string or an object whose
`email` field may be a string (`obj none` also covers null entries and
objects without a usable `email`, which the code skips). -/
inductive EmailEntry where
  | str (s : String)
  | obj (email : Option String)
deriving DecidableEq

/-- The organization object nested in a provider person payload. -/
structure Organization where
  name : Option String
  primary_domain : Option String
  industry : Option String
  estimated_num_employees : Option Nat
  sanitized_phone : Option String
  phone : Option String
deriving DecidableEq

/-- A provider person payload, with the fields both handlers read.  A phone
list entry that is `none` models a null element of the raw JSON array. -/
structure Person where
  id : Option String
  first_name : Option String
  last_name : Option String
  name : Option String
  linkedin_url : Option String
  title : Option String
  city : Option String
  state : Option String
  country : Option String
  headline : Option String
  photo_url : Option String
  seniority : Option String
  departments : Option (List String)
  organization : Option Organization
  email : Option String
  email_status : Option String
  emails : Option (List EmailEntry)
  phone_numbers : Option (List (Option PhoneEntry))
deriving DecidableEq

/-- The empty payload (every field absent), used to build concrete payloads
by record update. -/
def emptyPerson : Person :=
  { id := none, first_name := none, last_name := none, name := none
    linkedin_url := none, title := none, city := none, state := none
    country := none, headline := none, photo_url := none, seniority := none
    departments := none, organization := none, email := none
    email_status := none, emails := none, phone_numbers := none }

/-- The field-update map both handlers build for the target row (the
`updates` object).  `none` means the key is not written.  The volatile
`updated_at` timestamp is left out of the model; the one remaining place a
JS key can be present with value `undefined` (`primary_phone` when the
selected phone entry has no `sanitized_number`, enrich path only) is
identified with the absent key, which has the same serialized update. -/
structure Updates where
  enrichment_status : Option String
  first_name : Option String
  last_name : Option String
  linkedin_url : Option String
  title : Option String
  city : Option String
  state : Option String
  country : Option String
  headline : Option String
  photo_url : Option String
  seniority : Option String
  departments : Option (List String)
  organization_name : Option String
  organization_domain : Option String
  organization_industry : Option String
  organization_size : Option Nat
  email : Option String
  email_status : Option String
  phone_numbers : Option (List (Option PhoneEntry))
  primary_phone : Option String
deriving DecidableEq

/-- `resolveEmail`, helper: trim a candidate and accept it when nonempty and
not the locked placeholder. -/
def emailCandidate (s : String) : Option String :=
  let e := jsTrim s
  if e != "" && e != EMAIL_PLACEHOLDER then some e else none

/-- The `emails` array walk inside `resolveEmail` (webhook lines 127-141). -/
def resolveEmailList : List EmailEntry → Option String
  | [] => none
  | EmailEntry.str s :: rest =>
    match emailCandidate s with
    | some e => some e
    | none => resolveEmailList rest
  | EmailEntry.obj oe :: rest =>
    match oe with
    | some s =>
      match emailCandidate s with
      | some e => some e
      | none => resolveEmailList rest
    | none => resolveEmailList rest

/-- `resolveEmail` (webhook lines 119-144): the direct `email` field first,
then the `emails` list. -/
def resolveEmail (p : Person) : Option String :=
  let fromList :=
    match p.emails with
    | some l => resolveEmailList l
    | none => none
  match p.email with
  | some s =>
    match emailCandidate s with
    | some e => some e
    | none => fromList
  | none => fromList

/-- `resolvePhoneNumbers` (webhook lines 146-149): the raw list with falsy
(null) entries filtered out, `[]` when the field is absent or not a list. -/
def resolvePhoneNumbers (p : Person) : List PhoneEntry :=
  match p.phone_numbers with
  | some l => l.filterMap id
  | none => []

/-- The type string of a phone entry as `resolvePrimaryPhone` computes it:
`(phone?.type || phone?.type_cd || '').toString().toLowerCase()`. -/
def phoneTypeString (e : PhoneEntry) : String :=
  jsToLower ((jsOrElse e.type e.type_cd).getD "")

/-- `resolvePrimaryPhone` (webhook lines 151-165): prefer an entry whose type
string contains "mobile", else the first entry; take the first truthy of
`sanitized_number`, `number`, `raw_number`; trim; empty results become null. -/
def resolvePrimaryPhone (phoneNumbers : List PhoneEntry) : Option String :=
  match phoneNumbers with
  | [] => none
  | first :: _ =>
    let selected :=
      match phoneNumbers.find? (fun e => jsIncludes (phoneTypeString e) "mobile") with
      | some mobile => mobile
      | none => first
    match jsOrElse selected.sanitized_number
        (jsOrElse selected.number selected.raw_number) with
    | some raw => if jsTrim raw != "" then some (jsTrim raw) else none
    | none => none

/-- The opportunistic field copies of the webhook handler
(apollo-webhook/route.ts lines 204-230): `enrichment_status: 'completed'`
plus every person/organization field that is truthy in the payload. -/
def webhookBase (p : Person) : Updates :=
  { enrichment_status := some "completed"
    first_name := truthyOpt p.first_name
    last_name := truthyOpt p.last_name
    linkedin_url := truthyOpt p.linkedin_url
    title := truthyOpt p.title
    city := truthyOpt p.city
    state := truthyOpt p.state
    country := truthyOpt p.country
    headline := truthyOpt p.headline
    photo_url := truthyOpt p.photo_url
    seniority := truthyOpt p.seniority
    departments :=
      match p.departments with
      | some l => if 0 < l.length then some l else none
      | none => none
    organization_name :=
      match p.organization with
      | some org => truthyOpt org.name
      | none => none
    organization_domain :=
      match p.organization with
      | some org => truthyOpt org.primary_domain
      | none => none
    organization_industry :=
      match p.organization with
      | some org => truthyOpt org.industry
      | none => none
    organization_size :=
      match p.organization with
      | some org => if natTruthy org.estimated_num_employees then org.estimated_num_employees else none
      | none => none
    email := none
    email_status := none
    phone_numbers := none
    primary_phone := none }

/-- The organization-phone fallback of the webhook handler (lines 246-254):
when the resolved phone list is empty but the organization carries a phone,
synthesize a single `work_headquarters` entry.  Returns the
`(phone_numbers, primary_phone)` updates, `(none, none)` when not taken. -/
def webhookOrgPhoneFallback (p : Person) :
    Option (List (Option PhoneEntry)) × Option String :=
  match p.organization with
  | some org =>
    if strTruthy org.sanitized_phone || strTruthy org.phone then
      let v := jsOrElse org.sanitized_phone org.phone
      (some [some { type := some "work_headquarters", type_cd := none
                    sanitized_number := v, number := org.phone
                    raw_number := none }], v)
    else (none, none)
  | none => (none, none)

/-- The phone block of the webhook handler (lines 240-257): the
`(phone_numbers, primary_phone)` updates it produces. -/
def webhookPhoneFields (p : Person) (revealPhone : Bool) :
    Option (List (Option PhoneEntry)) × Option String :=
  let phoneNumbers := resolvePhoneNumbers p
  if revealPhone then
    if 0 < phoneNumbers.length then
      (some (phoneNumbers.map some),
       match resolvePrimaryPhone phoneNumbers with
       | some v => some v
       | none => none)
    else webhookOrgPhoneFallback p
  else (none, none)

/-- The email block of the webhook handler (lines 232-238): applied when
reveal-email is on and `resolveEmail` produced a truthy value. -/
def webhookApplyEmail (p : Person) (revealEmail : Bool) (u : Updates) : Updates :=
  if revealEmail && strTruthy (resolveEmail p) then
    { u with email := resolveEmail p
             email_status := some ((jsOrElse p.email_status (some "verified")).getD "verified") }
  else u

/-- The complete field-update map the webhook reconciler applies for a
resolved person payload (apollo-webhook/route.ts lines 204-257). -/
def webhookUpdates (p : Person) (revealEmail revealPhone : Bool) : Updates :=
  webhookApplyEmail p revealEmail
    { webhookBase p with
        phone_numbers := (webhookPhoneFields p revealPhone).1
        primary_phone := (webhookPhoneFields p revealPhone).2 }

/- ------------------------------------------------------------------
   enrich/route.ts (current revision), lines 752-826: the synchronous
   field-update map built when the remote API returns an immediate match
   ------------------------------------------------------------------ -/

/-- The opportunistic field copies of the enrich sync path (enrich/route.ts
lines 761-784).  The source duplicates the webhook block verbatim; the
duplication is kept here so agreement between the two is a theorem, not a
definition. -/
def enrichBase (p : Person) : Updates :=
  { enrichment_status := some "completed"
    first_name := truthyOpt p.first_name
    last_name := truthyOpt p.last_name
    linkedin_url := truthyOpt p.linkedin_url
    title := truthyOpt p.title
    city := truthyOpt p.city
    state := truthyOpt p.state
    country := truthyOpt p.country
    headline := truthyOpt p.headline
    photo_url := truthyOpt p.photo_url
    seniority := truthyOpt p.seniority
    departments :=
      match p.departments with
      | some l => if 0 < l.length then some l else none
      | none => none
    organization_name :=
      match p.organization with
      | some org => truthyOpt org.name
      | none => none
    organization_domain :=
      match p.organization with
      | some org => truthyOpt org.primary_domain
      | none => none
    organization_industry :=
      match p.organization with
      | some org => truthyOpt org.industry
      | none => none
    organization_size :=
      match p.organization with
      | some org => if natTruthy org.estimated_num_employees then org.estimated_num_employees else none
      | none => none
    email := none
    email_status := none
    phone_numbers := none
    primary_phone := none }

/-- The scan `p.phone_numbers.find(qn => qn.type === 'mobile')` of the enrich
sync path (line 790).  Unlike the webhook, it reads `.type` without optional
chaining: a null list entry reached before a match raises a TypeError, which
aborts the whole handler; this is the `Except.error` case. -/
def enrichMobileScan : List (Option PhoneEntry) → Except Unit (Option PhoneEntry)
  | [] => Except.ok none
  | none :: _ => Except.error ()
  | some e :: rest =>
    if e.type == some "mobile" then Except.ok (some e) else enrichMobileScan rest

/-- The organization-phone fallback of the enrich sync path (lines 792-800),
textually the same block as the webhook one. -/
def enrichOrgPhoneFallback (p : Person) :
    Option (List (Option PhoneEntry)) × Option String :=
  match p.organization with
  | some org =>
    if strTruthy org.sanitized_phone || strTruthy org.phone then
      let v := jsOrElse org.sanitized_phone org.phone
      (some [some { type := some "work_headquarters", type_cd := none
                    sanitized_number := v, number := org.phone
                    raw_number := none }], v)
    else (none, none)
  | none => (none, none)

/-- The phone block of the enrich sync path (lines 786-804): stores the raw
(unfiltered) provider list, prefers an entry typed exactly `mobile`, else the
first entry, and always reads `sanitized_number` of the selected entry.
`Except.error` models the TypeError raised on a null entry. -/
def enrichPhoneFields (p : Person) (revealPhone : Bool) :
    Except Unit (Option (List (Option PhoneEntry)) × Option String) :=
  if revealPhone then
    match p.phone_numbers with
    | some l =>
      if 0 < l.length then
        match enrichMobileScan l with
        | Except.error e => Except.error e
        | Except.ok (some mobile) => Except.ok (some l, mobile.sanitized_number)
        | Except.ok none =>
          match l.head? with
          | some (some first) => Except.ok (some l, first.sanitized_number)
          | some none => Except.error ()
          | none => Except.error ()
      else Except.ok (enrichOrgPhoneFallback p)
    | none => Except.ok (enrichOrgPhoneFallback p)
  else Except.ok (none, none)

/-- The email block of the enrich sync path (lines 806-814): only the direct
`email` field is consulted (no trimming, no `emails` list). -/
def enrichApplyEmail (p : Person) (revealEmail : Bool) (u : Updates) : Updates :=
  if revealEmail && (strTruthy p.email && !(p.email == some EMAIL_PLACEHOLDER)) then
    { u with email := p.email
             email_status := some ((jsOrElse p.email_status (some "verified")).getD "verified") }
  else u

/-- The complete field-update map of the enrich sync path for a matched
person (enrich/route.ts lines 752-826); `Except.error` models the handler
aborting with a TypeError on a null phone entry. -/
def enrichUpdates (p : Person) (revealEmail revealPhone : Bool) :
    Except Unit Updates :=
  (enrichPhoneFields p revealPhone).map (fun pf =>
    enrichApplyEmail p revealEmail
      { enrichBase p with phone_numbers := pf.1, primary_phone := pf.2 })

/- ------------------------------------------------------------------
   apollo-webhook/route.ts, lines 87-117 and 188-194: locating a
   person-like payload in the callback body
   ------------------------------------------------------------------ -/

/-- A JSON value, for the untyped webhook callback body. -/
inductive Json where
  | null
  | bool (b : Bool)
  | num (n : Int)
  | str (s : String)
  | arr (xs : List Json)
  | obj (fields : List (String × Json))

/-- Property access `j[k]` on a JSON value: `none` models `undefined`. -/
def jsonGet (j : Json) (k : String) : Option Json :=
  match j with
  | Json.obj fields => fields.lookup k
  | _ => none

/-- The fixed key list of `looksLikePerson` (lines 90-101). -/
def personKeys : List String :=
  ["id", "email", "emails", "phone_numbers", "first_name", "last_name",
   "name", "linkedin_url", "organization", "title"]

/-- `looksLikePerson` (lines 87-104): a non-null, non-array object with at
least one person-identifying key whose value is neither undefined nor null. -/
def looksLikePerson (candidate : Json) : Bool :=
  match candidate with
  | Json.obj fields =>
    personKeys.any (fun k =>
      match fields.lookup k with
      | some Json.null => false
      | some _ => true
      | none => false)
  | _ => false

/-- `looksLikePerson` applied to a possibly-undefined value, as in
`looksLikePerson(body?.person)`. -/
def optLooksLikePerson : Option Json → Bool
  | some j => looksLikePerson j
  | none => false

/-- The entries of `body.people` when it is an array, else `[]`. -/
def peopleEntries (body : Json) : List Json :=
  match jsonGet body "people" with
  | some (Json.arr xs) => xs
  | _ => []

/-- Whether `body.people` is an array (`Array.isArray(body?.people)`). -/
def peopleIsArray (body : Json) : Bool :=
  match jsonGet body "people" with
  | some (Json.arr _) => true
  | _ => false

/-- `resolvePersonFromWebhook` (lines 106-117): `body.person`, then the first
person-like entry of `body.people`, then the body itself. -/
def resolvePersonFromWebhook (body : Json) : Option Json :=
  if optLooksLikePerson (jsonGet body "person") then jsonGet body "person"
  else
    match (peopleEntries body).find? looksLikePerson with
    | some person => some person
    | none => if looksLikePerson body then some body else none

/-- The acknowledgement part of the webhook response. -/
structure WebhookAck where
  status : Nat
  received : Bool
  processed : Bool
deriving DecidableEq

/-- The early-return control flow of the webhook `POST` around the person
payload (lines 188-194): with no person-like payload the handler returns
200 `{received: true, processed: false}` before any row lookup or update;
otherwise it proceeds to the update path (modelled by `processed = true`). -/
def webhookAck (body : Json) : WebhookAck :=
  match resolvePersonFromWebhook body with
  | none => { status := 200, received := true, processed := false }
  | some _ => { status := 200, received := true, processed := true }

/-- Whether the webhook handler reaches the row-update path for this body
(everything after line 194 runs only when a person was resolved). -/
def webhookAttemptsRowUpdate (body : Json) : Bool :=
  (resolvePersonFromWebhook body).isSome

/- ------------------------------------------------------------------
   apollo-webhook/route.ts, lines 16-85: the schema-drift-tolerant update
   ------------------------------------------------------------------ -/

/-- The single-quote character, written by code point to keep string
literals free of quotes. -/
def quoteChar : Char := Char.ofNat 39

/-- The literal prefix of a PostgREST missing-column message up to and
including the opening quote of the column name. -/
def errMarker : List Char := ("Could not find the ").toList ++ [quoteChar]

/-- The PostgREST error message for a column `c` missing from `table`
(the external collaborator message format that
`extractMissingColumnFromError` parses). -/
def columnErrorMessage (c table : String) : String :=
  String.mk (errMarker ++ c.toList ++ [quoteChar] ++ (" column of ").toList
    ++ [quoteChar] ++ table.toList ++ [quoteChar] ++ (" in the schema cache").toList)

/-- Scan for the first occurrence of `marker` and return the characters
after it, `none` when it does not occur. -/
def findMarkerSuffix (marker : List Char) : List Char → Option (List Char)
  | [] => none
  | c :: rest =>
    if marker.isPrefixOf (c :: rest) then some ((c :: rest).drop marker.length)
    else findMarkerSuffix marker rest

/-- The capture group of `/'([^']+)' column/` applied to the characters
that follow the marker: a nonempty run of non-quote characters, provided it
is followed by a quote and ` column`. -/
def parseColumnCapture (rest : List Char) : Option String :=
  let col := rest.takeWhile (fun ch => ch != quoteChar)
  let after := rest.dropWhile (fun ch => ch != quoteChar)
  if col.isEmpty then none
  else if ([quoteChar] ++ (" column").toList).isPrefixOf after then
    some (String.mk col)
  else none

/-- `extractMissingColumnFromError` (lines 16-20): the capture group of
`/Could not find the '([^']+)' column/`. -/
def extractMissingColumnFromError (msg : Option String) : Option String :=
  match msg with
  | none => none
  | some m =>
    match findMarkerSuffix errMarker m.toList with
    | none => none
    | some rest => parseColumnCapture rest

/-- The observable behaviour of `supabaseAdmin.from(table).update(updates)`
for this claim: the destination table is a list of column names, and the
update is rejected with a PostgREST missing-column message naming the first
update key that is not a column; it succeeds when every key is a column.
The update payload is the association list of the JS object entries. -/
def dbUpdateError (schema : List String) (table : String)
    (updates : List (String × String)) : Option String :=
  match updates.find? (fun kv => !(schema.contains kv.1)) with
  | some kv => some (columnErrorMessage kv.1 table)
  | none => none

/-- The result record of `updateRowWithSchemaFallback`: the final error (if
any), the columns dropped, the update payload finally attempted, and whether
a database update succeeded. -/
structure FallbackResult where
  error : Option String
  removedColumns : List String
  finalUpdates : List (String × String)
  applied : Bool
deriving DecidableEq

/-- The retry loop of `updateRowWithSchemaFallback` (lines 33-75), on the
remaining attempt budget: try the update; on a missing-column error whose
column is still in the payload, drop it and retry; stop on success, on an
unparseable or alien error, on an emptied payload, or after `maxAttempts`. -/
def schemaFallbackGo (schema : List String) (table : String) :
    Nat → List (String × String) → List String → FallbackResult
  | 0, safeUpdates, removed =>
    { error := some ("Database update failed: Exceeded schema fallback attempts for table " ++ table)
      removedColumns := removed, finalUpdates := safeUpdates, applied := false }
  | attemptsLeft + 1, safeUpdates, removed =>
    match dbUpdateError schema table safeUpdates with
    | none =>
      { error := none, removedColumns := removed
        finalUpdates := safeUpdates, applied := true }
    | some msg =>
      match extractMissingColumnFromError (some msg) with
      | none =>
        { error := some msg, removedColumns := removed
          finalUpdates := safeUpdates, applied := false }
      | some missingColumn =>
        if (safeUpdates.map Prod.fst).contains missingColumn then
          let safeUpdates' := safeUpdates.filter (fun kv => kv.1 != missingColumn)
          let removed' := removed ++ [missingColumn]
          if safeUpdates'.isEmpty then
            { error := some ("Database update failed: No valid columns remain after schema fallback for table " ++ table)
              removedColumns := removed', finalUpdates := safeUpdates', applied := false }
          else schemaFallbackGo schema table attemptsLeft safeUpdates' removed'
        else
          { error := some msg, removedColumns := removed
            finalUpdates := safeUpdates, applied := false }

/-- `updateRowWithSchemaFallback` (lines 22-85), `maxAttempts = 20`. -/
def updateRowWithSchemaFallback (schema : List String) (table : String)
    (updates : List (String × String)) : FallbackResult :=
  schemaFallbackGo schema table 20 updates []

/- ------------------------------------------------------------------
   enrich/route.ts (current revision), lines 708-716: request validation
   after the shared-secret check has passed
   ------------------------------------------------------------------ -/

/-- The parts of the enrichment-trigger body that the required-field check
reads.  `lead` is kept as raw JSON, since only its truthiness matters here
(`none` models both an absent key and JSON null is `some Json.null`). -/
structure EnrichRequestBody where
  record_id : Option String
  table_name : Option String
  lead : Option Json

/-- JS truthiness of a JSON value. -/
def jsonTruthy : Json → Bool
  | Json.null => false
  | Json.bool b => b
  | Json.num n => n != 0
  | Json.str s => s != ""
  | Json.arr _ => true
  | Json.obj _ => true

/-- Truthiness of a possibly-absent JSON value. -/
def optJsonTruthy : Option Json → Bool
  | some j => jsonTruthy j
  | none => false

/-- Line 710: `(body.table_name as string)?.trim() || 'enriched_leads'` —
a missing or blank table name silently becomes `enriched_leads`. -/
def enrichResolvedTableName (b : EnrichRequestBody) : String :=
  match b.table_name with
  | some s => if jsTrim s != "" then jsTrim s else "enriched_leads"
  | none => "enriched_leads"

/-- Line 714: `if (!record_id || !lead || !table_name)` with
`record_id = (body.record_id as string)?.trim()` (line 709) — whether the
handler answers 400 for missing required fields. -/
def enrichReturns400 (b : EnrichRequestBody) : Bool :=
  !(strTruthy (b.record_id.map jsTrim))
    || !(optJsonTruthy b.lead)
    || (enrichResolvedTableName b == "")

/- ------------------------------------------------------------------
   Concrete inputs used by the closed theorems below
   ------------------------------------------------------------------ -/

/-- A sample remote organization. -/
def searchOrg1 : ApolloCompany := { id := "org1", name := "Acme", primary_domain := "acme.com" }

/-- A second sample remote organization. -/
def searchOrg2 : ApolloCompany := { id := "org2", name := "Globex", primary_domain := "globex.com" }

/-- A sample remote person of the people search. -/
def searchLead1 : SearchPerson :=
  { id := "p1", first_name := "Ada", last_name := "L", email := "ada@acme.com"
    linkedin_url := "li", organization_name := "Acme", title := "CTO" }

/-- A company API that answers every page with one organization. -/
def c2CexApi : Nat → Option (List ApolloCompany) := fun _ => some [searchOrg1]

/-- A people API that answers every page of every chunk with one person. -/
def c2WitnessPapi : List String → Nat → Option (List SearchPerson) :=
  fun _ _ => some [searchLead1]

/-- A company API that answers every page with one organization. -/
def c3WitnessApi : Nat → Option (List ApolloCompany) := fun _ => some [searchOrg1]

/-- A company API that answers every page with two organizations, so a cap
of 1 truncates in the middle of the first page. -/
def c4CexApi : Nat → Option (List ApolloCompany) := fun _ => some [searchOrg1, searchOrg2]

/-- A search request with company filters and a title filter. -/
def c5Request1 : LeadSearchRequest :=
  { user_id := "u1", industry_keywords := some ["saas"]
    company_location := some ["United States"], titles := none
    seniorities := none, employee_ranges := some ["11,50"], max_results := some 100 }

/-- The same company filters as `c5Request1` with different user, titles,
seniorities and cap. -/
def c5Request2 : LeadSearchRequest :=
  { user_id := "u2", industry_keywords := some ["saas"]
    company_location := some ["United States"], titles := some ["CEO", "CTO"]
    seniorities := some ["owner"], employee_ranges := some ["11,50"], max_results := some 10 }

/-- An organization that only carries a switchboard phone. -/
def c6WitnessOrg : Organization :=
  { name := some "Acme", primary_domain := none, industry := none
    estimated_num_employees := none, sanitized_phone := none
    phone := some "+15550100" }

/-- A payload with an empty phone list and an organization phone. -/
def c6WitnessPerson : Person :=
  { emptyPerson with first_name := some "Ada", organization := some c6WitnessOrg
                     phone_numbers := some [] }

/-- A payload whose phone list has a `Mobile`-typed entry after an
`other`-typed one: the webhook picks the mobile entry (case-insensitive
substring match), the enrich sync path picks the first entry (it compares
for `mobile` exactly). -/
def c8CexPerson : Person :=
  { emptyPerson with phone_numbers := some (
      [some { type := some "other", type_cd := none, sanitized_number := some "111"
              number := none, raw_number := none },
       some { type := some "Mobile", type_cd := none, sanitized_number := some "222"
              number := none, raw_number := none }]) }

/-- The update map the enrich sync path computes for `emptyPerson`. -/
def c8WitnessUpdates : Updates :=
  { enrichment_status := some "completed"
    first_name := none, last_name := none, linkedin_url := none, title := none
    city := none, state := none, country := none, headline := none
    photo_url := none, seniority := none, departments := none
    organization_name := none, organization_domain := none
    organization_industry := none, organization_size := none
    email := none, email_status := none, phone_numbers := none, primary_phone := none }

/-- A callback body with no person-like payload anywhere. -/
def c9WitnessBody : Json :=
  Json.obj [("event", Json.str "ping"), ("people", Json.arr [Json.str "x", Json.null])]

/-- An enrichment request body with `record_id` and `lead` but no
`table_name`. -/
def c10CexBody : EnrichRequestBody :=
  { record_id := some "rec-1", table_name := none
    lead := some (Json.obj [("first_name", Json.str "Ada")]) }

/- ==================================================================
   Theorems
   ================================================================== -/

/-- C1: a search request whose `(user_id, filter fingerprint)` key has a
stored `SearchProgress` row with `last_company_page = p` starts company
pagination at page `p + 1`, and a request with no stored progress starts at
page 1 (lead-search/route.ts lines 91-115). -/
theorem c1_company_pagination_start :
    (∀ p : Nat, companyStartPage (some p) = p + 1) ∧ companyStartPage none = 1 :=
  ⟨fun _ => rfl, rfl⟩

/-- C3: across a search invocation, the `last_company_page` stored for a
`(user_id, filters_hash)` key never decreases: whatever the remote pages,
the cap and the upsert outcome, a stored value `q` after the run satisfies
`p ≤ q` when `p` was stored before (lead-search/route.ts lines 119-135 with
`fetchCompanies`). -/
theorem c3_checkpoint_monotone (capi : Nat → Option (List ApolloCompany))
    (max_results : Nat) (upsertOk : Bool) (p q : Nat)
    (h : progressAfter (some p) upsertOk capi max_results = some q) : p ≤ q := by
  simp only [progressAfter, companyStartPage] at h
  split at h
  · split at h
    · rename_i hle _
      injection h with h
      omega
    · injection h with h
      omega
  · injection h with h
    omega

/-- Witness for C3 at a concrete run: previous checkpoint 3, five pages
fetched, new checkpoint 8. -/
theorem c3_checkpoint_monotone_witness :
    progressAfter (some 3) true c3WitnessApi 5 = some 8 ∧ 3 ≤ 8 :=
  ⟨by decide, c3_checkpoint_monotone c3WitnessApi 5 true 3 8 (by decide)⟩

/-- C5: the filter fingerprint is a function of `industry_keywords`,
`company_location` and `employee_ranges` alone — two requests agreeing on
those three fields hash identically whatever their `titles`, `seniorities`,
`max_results` or `user_id`, and repeated hashing of the same subset is
deterministic; this holds for every hash function `h`, in particular for the
MD5 used at lead-search/route.ts lines 77-89. -/
theorem c5_fingerprint_function_of_company_filters
    (h : String → String) (r1 r2 : LeadSearchRequest)
    (hik : r1.industry_keywords = r2.industry_keywords)
    (hcl : r1.company_location = r2.company_location)
    (her : r1.employee_ranges = r2.employee_ranges) :
    filtersHash h r1 = filtersHash h r2 := by
  unfold filtersHash filtersForHash
  rw [hik, hcl, her]

/-- Witness for C5: two requests with the same company filters but different
user, titles, seniorities and cap fingerprint identically. -/
theorem c5_fingerprint_witness :
    c5Request1 ≠ c5Request2 ∧
    filtersHash (fun s => s) c5Request1 = filtersHash (fun s => s) c5Request2 :=
  ⟨by decide,
   c5_fingerprint_function_of_company_filters (fun s => s) c5Request1 c5Request2 rfl rfl rfl⟩

/-- C10 counterexample: a request that passes the secret check and carries
`record_id` and `lead` but no `table_name` is not answered with 400 — the
handler defaults the table to `enriched_leads` (enrich/route.ts line 710),
so the claimed equivalence with "a required field among record_id,
table_name, or lead is missing" fails. -/
theorem c10_table_name_counterexample :
    c10CexBody.table_name = none ∧ enrichReturns400 c10CexBody = false :=
  ⟨rfl, by decide⟩

/-- C10 amended: after the secret check, the handler returns 400 exactly
when `record_id` is missing or blank after trimming, or `lead` is missing or
falsy; a missing `table_name` never triggers the 400 because line 710
defaults it to `enriched_leads`, which is never empty. -/
theorem c10_missing_field_400 (b : EnrichRequestBody) :
    (enrichReturns400 b = true ↔
      (strTruthy (b.record_id.map jsTrim) = false ∨ optJsonTruthy b.lead = false)) ∧
    enrichResolvedTableName b ≠ "" := by
  have htn : (enrichResolvedTableName b == "") = false := by
    unfold enrichResolvedTableName
    cases b.table_name with
    | none => decide
    | some s =>
      show ((if (jsTrim s != "") = true then jsTrim s else "enriched_leads") == "") = false
      by_cases hcond : (jsTrim s != "") = true
      · rw [if_pos hcond]
        simpa using hcond
      · rw [if_neg hcond]
        decide
  constructor
  · unfold enrichReturns400
    rw [htn]
    cases hr : strTruthy (b.record_id.map jsTrim) <;>
      cases hl : optJsonTruthy b.lead <;> simp
  · intro hteq
    rw [hteq] at htn
    simp at htn

/-- Helper: one people fetch never returns more than its budget (the final
`people.slice(0, filters.max_results)` truncates exactly). -/
theorem fetchPeople_length_le (api : Nat → Option (List SearchPerson))
    (budget : Nat) : (fetchPeople api budget).length ≤ budget := by
  simp [fetchPeople]

/-- Helper: the chunk loop keeps the aggregate lead list within the budget,
because each chunk is fetched with the remaining budget. -/
theorem collectLeads_length_le (api : List String → Nat → Option (List SearchPerson))
    (max_results : Nat) :
    ∀ (chunks : List (List String)) (acc : List SearchPerson),
      acc.length ≤ max_results →
      (collectLeads api max_results chunks acc).length ≤ max_results
  | [], acc, h => h
  | chunk :: rest, acc, h => by
    unfold collectLeads
    split
    · exact h
    · apply collectLeads_length_le api max_results rest
      have hf := fetchPeople_length_le (api chunk) (max_results - acc.length)
      simp only [List.length_append]
      omega

/-- C2 counterexample: the claim fails at `max_results = 0`.  Because
`fetchCompanies` computes its cap as `filters.max_results || 100`
(line 212), a request cap of 0 silently becomes 100, and with a remote API
returning one organization per page the company fetcher returns 11
organizations, not at most 0. -/
theorem c2_zero_cap_counterexample :
    (fetchCompanies c2CexApi 0 1).1.length = 11 ∧
    ¬ (fetchCompanies c2CexApi 0 1).1.length ≤ 0 := by
  constructor
  · decide
  · decide

/-- C2 amended: for every positive cap `N` (0 is remapped to 100 by
`max_results || 100`), the company fetcher returns at most `N`
organizations; each per-chunk people fetch returns at most its budget, for
every budget; and the aggregate lead list of the whole pipeline has length
at most `N` — all regardless of what the remote API returns on any page. -/
theorem c2_result_caps (capi : Nat → Option (List ApolloCompany))
    (papi : List String → Nat → Option (List SearchPerson))
    (chunkApi : Nat → Option (List SearchPerson))
    (stored : Option Nat) (N budget start_page : Nat) (hN : 1 ≤ N) :
    (fetchCompanies capi N start_page).1.length ≤ N ∧
    (fetchPeople chunkApi budget).length ≤ budget ∧
    (leadSearchLeads capi papi stored N).length ≤ N := by
  refine ⟨?_, fetchPeople_length_le chunkApi budget, ?_⟩
  · have hN0 : ¬ N = 0 := by omega
    simp [fetchCompanies, hN0]
  · unfold leadSearchLeads
    exact collectLeads_length_le papi N _ [] (by simp)

/-- Witness for C2 at a concrete run: cap 3, every remote page nonempty. -/
theorem c2_result_caps_witness :
    (1 ≤ 3) ∧
    ((fetchCompanies c2CexApi 3 1).1.length ≤ 3 ∧
     (fetchPeople (c2WitnessPapi ["org1"]) 2).length ≤ 2 ∧
     (leadSearchLeads c2CexApi c2WitnessPapi none 3).length ≤ 3) :=
  ⟨by decide,
   c2_result_caps c2CexApi c2WitnessPapi (c2WitnessPapi ["org1"]) none 3 2 1 (by decide)⟩

/-- Helper: the `lastPageFetched` slot of the company loop either keeps its
initial value or names a page at least `s` whose remote response was
nonempty, provided it starts that way and pages run from `s` upward. -/
theorem fetchCompaniesGo_last_spec (api : Nat → Option (List ApolloCompany))
    (maxCompanies s : Nat) :
    ∀ (fuel : Nat), ∀ (page : Nat) (acc : List ApolloCompany) (last : Nat),
      s ≤ page →
      (last = s - 1 ∨ (s ≤ last ∧ ∃ l, api last = some l ∧ l.length ≠ 0)) →
      ((fetchCompaniesGo api maxCompanies fuel page acc last).2 = s - 1 ∨
       (s ≤ (fetchCompaniesGo api maxCompanies fuel page acc last).2 ∧
        ∃ l, api (fetchCompaniesGo api maxCompanies fuel page acc last).2 = some l ∧
          l.length ≠ 0)) := by
  intro fuel
  induction fuel with
  | zero =>
    intro page acc last hsp hinv
    unfold fetchCompaniesGo
    split
    · exact hinv
    · exact hinv
  | succ fuel' ih =>
    intro page acc last hsp hinv
    unfold fetchCompaniesGo
    split
    · cases happ : api page with
      | none => exact hinv
      | some newCompanies =>
        by_cases hlen : newCompanies.length = 0
        · simp only [happ, hlen, if_true]
          exact hinv
        · simp only [happ, hlen, if_false]
          exact ih (page + 1) (acc ++ newCompanies) page (by omega)
            (Or.inr ⟨hsp, newCompanies, happ, hlen⟩)
    · exact hinv

/-- C4 counterexample: with cap 1 and a first page of two organizations, the
cap truncates mid-page (two fetched, one returned) yet `lastPageFetched` is
1 and the handler would upsert the checkpoint to 1 — the partially discarded
page is included in checkpoint advancement, contradicting the claim. -/
theorem c4_partial_page_counterexample :
    c4CexApi 1 = some [searchOrg1, searchOrg2] ∧
    (fetchCompanies c4CexApi 1 1).1 = [searchOrg1] ∧
    (fetchCompanies c4CexApi 1 1).2 = 1 ∧
    progressAfter none true c4CexApi 1 = some 1 := by
  refine ⟨by decide, by decide, by decide, by decide⟩

/-- C4 amended: the last-page-fetched value used for checkpoint advancement
is `start_page - 1` when no page was consumed, and otherwise names a page at
or after `start_page` whose remote response was nonempty and was appended to
the accumulator — whether or not the cap later discarded part of it; a page
partially discarded by truncation is still included. -/
theorem c4_last_page_fetched (api : Nat → Option (List ApolloCompany))
    (max_results start_page : Nat) :
    (fetchCompanies api max_results start_page).2 = start_page - 1 ∨
    (start_page ≤ (fetchCompanies api max_results start_page).2 ∧
     ∃ l, api (fetchCompanies api max_results start_page).2 = some l ∧
       l.length ≠ 0) := by
  unfold fetchCompanies
  exact fetchCompaniesGo_last_spec api _ start_page 11 start_page [] (start_page - 1)
    le_rfl (Or.inl rfl)

/-- Helper: the email block of the webhook handler never touches the phone
fields of the update map. -/
theorem webhookUpdates_phone_proj (p : Person) (revealEmail revealPhone : Bool) :
    (webhookUpdates p revealEmail revealPhone).phone_numbers =
      (webhookPhoneFields p revealPhone).1 ∧
    (webhookUpdates p revealEmail revealPhone).primary_phone =
      (webhookPhoneFields p revealPhone).2 := by
  unfold webhookUpdates webhookApplyEmail
  split
  · exact ⟨rfl, rfl⟩
  · exact ⟨rfl, rfl⟩

/-- C6: (i) a webhook callback processed with `reveal_phone = false` writes
neither `phone_numbers` nor `primary_phone`, whatever the payload contains;
(ii) with `reveal_phone = true`, an empty resolved phone list and an
organization carrying a (sanitized or raw) phone, the update contains
exactly one synthesized phone entry typed `work_headquarters` carrying the
organization phone, which is also the primary phone
(apollo-webhook/route.ts lines 146-165 and 240-257). -/
theorem c6_webhook_phone_reveal (p : Person) (revealEmail : Bool) :
    ((webhookUpdates p revealEmail false).phone_numbers = none ∧
     (webhookUpdates p revealEmail false).primary_phone = none) ∧
    (∀ org : Organization, resolvePhoneNumbers p = [] → p.organization = some org →
      (strTruthy org.sanitized_phone || strTruthy org.phone) = true →
      (webhookUpdates p revealEmail true).phone_numbers =
        some [some { type := some "work_headquarters", type_cd := none
                     sanitized_number := jsOrElse org.sanitized_phone org.phone
                     number := org.phone, raw_number := none }] ∧
      (webhookUpdates p revealEmail true).primary_phone =
        jsOrElse org.sanitized_phone org.phone) := by
  constructor
  · exact ⟨(webhookUpdates_phone_proj p revealEmail false).1,
           (webhookUpdates_phone_proj p revealEmail false).2⟩
  · intro org hres horg htr
    have hpf : webhookPhoneFields p true =
        (some [some { type := some "work_headquarters", type_cd := none
                      sanitized_number := jsOrElse org.sanitized_phone org.phone
                      number := org.phone, raw_number := none }],
         jsOrElse org.sanitized_phone org.phone) := by
      simp [webhookPhoneFields, webhookOrgPhoneFallback, hres, horg, htr]
    exact ⟨by rw [(webhookUpdates_phone_proj p revealEmail true).1, hpf],
           by rw [(webhookUpdates_phone_proj p revealEmail true).2, hpf]⟩

/-- Witness for C6 at a concrete payload with an empty phone list and an
organization switchboard number. -/
theorem c6_webhook_phone_reveal_witness :
    ((webhookUpdates c6WitnessPerson true false).phone_numbers = none ∧
     (webhookUpdates c6WitnessPerson true false).primary_phone = none) ∧
    ((webhookUpdates c6WitnessPerson true true).phone_numbers =
       some [some { type := some "work_headquarters", type_cd := none
                    sanitized_number := jsOrElse c6WitnessOrg.sanitized_phone c6WitnessOrg.phone
                    number := c6WitnessOrg.phone, raw_number := none }] ∧
     (webhookUpdates c6WitnessPerson true true).primary_phone =
       jsOrElse c6WitnessOrg.sanitized_phone c6WitnessOrg.phone) :=
  ⟨(c6_webhook_phone_reveal c6WitnessPerson true).1,
   (c6_webhook_phone_reveal c6WitnessPerson true).2 c6WitnessOrg (by decide) rfl (by decide)⟩

/-- C9: a webhook callback whose body carries no person-like payload —
not directly, not under `person`, and not as any entry of a `people` list —
resolves no person, reaches no row update, and is answered 200 with
`{received: true, processed: false}` (apollo-webhook/route.ts lines 106-117
and 188-194). -/
theorem c9_webhook_no_person (body : Json)
    (h1 : optLooksLikePerson (jsonGet body "person") = false)
    (h2 : ∀ e ∈ peopleEntries body, looksLikePerson e = false)
    (h3 : looksLikePerson body = false) :
    resolvePersonFromWebhook body = none ∧
    webhookAck body = { status := 200, received := true, processed := false } ∧
    webhookAttemptsRowUpdate body = false := by
  have hres : resolvePersonFromWebhook body = none := by
    unfold resolvePersonFromWebhook
    rw [h1]
    have hfind : (peopleEntries body).find? looksLikePerson = none :=
      List.find?_eq_none.mpr (fun x hx => by simp [h2 x hx])
    simp [hfind, h3]
  exact ⟨hres, by simp [webhookAck, hres], by simp [webhookAttemptsRowUpdate, hres]⟩

/-- Witness for C9 at a concrete body (an event ping whose `people` list has
no person-like entry). -/
theorem c9_webhook_no_person_witness :
    resolvePersonFromWebhook c9WitnessBody = none ∧
    webhookAck c9WitnessBody = { status := 200, received := true, processed := false } ∧
    webhookAttemptsRowUpdate c9WitnessBody = false :=
  c9_webhook_no_person c9WitnessBody (by decide) (by decide) (by decide)

/-- C8 counterexample: for a payload whose phone list is
`[{type: other, 111}, {type: Mobile, 222}]` the two paths compute different
update maps — the webhook primary phone is 222 (case-insensitive substring
match on `mobile`), the enrich sync path primary phone is 111 (it compares
`type === 'mobile'` exactly, finds nothing, and takes the first entry) — so
the claimed equality of the two field-update maps is false. -/
theorem c8_sync_webhook_counterexample :
    (enrichUpdates c8CexPerson true true).toOption ≠
      some (webhookUpdates c8CexPerson true true) ∧
    (enrichUpdates c8CexPerson true true).toOption.map
      (fun u => u.primary_phone) = some (some "111") ∧
    (webhookUpdates c8CexPerson true true).primary_phone = some "222" := by
  refine ⟨by decide, by decide, by decide⟩

/-- C8 amended: whenever the enrich sync path completes without a TypeError,
its update map agrees with the webhook update map on every opportunistically
copied field — status, name, LinkedIn, title, location, headline, photo,
seniority, departments and the organization fields.  The email fields and
the phone fields can differ: the webhook trims and also consults the
`emails` list, matches `mobile` case-insensitively as a substring of
`type`/`type_cd` and falls back through `sanitized_number`/`number`/
`raw_number`, while the enrich sync path uses the raw `email` value, an
exact `type === 'mobile'` comparison and `sanitized_number` only, as the
counterexample exhibits. -/
theorem c8_field_mapping_agreement (p : Person) (revealEmail revealPhone : Bool)
    (u : Updates) (h : enrichUpdates p revealEmail revealPhone = Except.ok u) :
    u.enrichment_status = (webhookUpdates p revealEmail revealPhone).enrichment_status ∧
    u.first_name = (webhookUpdates p revealEmail revealPhone).first_name ∧
    u.last_name = (webhookUpdates p revealEmail revealPhone).last_name ∧
    u.linkedin_url = (webhookUpdates p revealEmail revealPhone).linkedin_url ∧
    u.title = (webhookUpdates p revealEmail revealPhone).title ∧
    u.city = (webhookUpdates p revealEmail revealPhone).city ∧
    u.state = (webhookUpdates p revealEmail revealPhone).state ∧
    u.country = (webhookUpdates p revealEmail revealPhone).country ∧
    u.headline = (webhookUpdates p revealEmail revealPhone).headline ∧
    u.photo_url = (webhookUpdates p revealEmail revealPhone).photo_url ∧
    u.seniority = (webhookUpdates p revealEmail revealPhone).seniority ∧
    u.departments = (webhookUpdates p revealEmail revealPhone).departments ∧
    u.organization_name = (webhookUpdates p revealEmail revealPhone).organization_name ∧
    u.organization_domain = (webhookUpdates p revealEmail revealPhone).organization_domain ∧
    u.organization_industry = (webhookUpdates p revealEmail revealPhone).organization_industry ∧
    u.organization_size = (webhookUpdates p revealEmail revealPhone).organization_size := by
  unfold enrichUpdates at h
  cases hpf : enrichPhoneFields p revealPhone with
  | error e => rw [hpf] at h; cases h
  | ok pf =>
    rw [hpf] at h
    have hu : enrichApplyEmail p revealEmail
        { enrichBase p with phone_numbers := pf.1, primary_phone := pf.2 } = u := by
      cases h; rfl
    subst hu
    unfold webhookUpdates enrichApplyEmail webhookApplyEmail
    split <;> split <;>
      exact ⟨rfl, rfl, rfl, rfl, rfl, rfl, rfl, rfl, rfl, rfl, rfl, rfl, rfl, rfl, rfl, rfl⟩

/-- Witness for C8 at a concrete run of the enrich sync path that completes
(the empty payload). -/
theorem c8_field_mapping_agreement_witness :
    enrichUpdates emptyPerson true true = Except.ok c8WitnessUpdates ∧
    c8WitnessUpdates.enrichment_status = (webhookUpdates emptyPerson true true).enrichment_status ∧
    c8WitnessUpdates.first_name = (webhookUpdates emptyPerson true true).first_name ∧
    c8WitnessUpdates.organization_size = (webhookUpdates emptyPerson true true).organization_size :=
  ⟨by rfl,
   (c8_field_mapping_agreement emptyPerson true true c8WitnessUpdates (by rfl)).1,
   (c8_field_mapping_agreement emptyPerson true true c8WitnessUpdates (by rfl)).2.1,
   (c8_field_mapping_agreement emptyPerson true true c8WitnessUpdates (by rfl)).2.2.2.2.2.2.2.2.2.2.2.2.2.2.2⟩

/-- Helper: a list is a Boolean prefix of itself followed by anything. -/
theorem isPrefixOf_append_self (m rest : List Char) :
    m.isPrefixOf (m ++ rest) = true := by
  induction m with
  | nil => simp [List.isPrefixOf]
  | cons a t ih => simp [List.cons_append, List.isPrefixOf, ih]

/-- Helper: scanning a string that starts with the marker returns exactly
the characters after the marker. -/
theorem findMarkerSuffix_at_start (m rest : List Char) (hm : m ≠ []) :
    findMarkerSuffix m (m ++ rest) = some rest := by
  cases m with
  | nil => exact absurd rfl hm
  | cons a t =>
    rw [List.cons_append, findMarkerSuffix]
    have hpre : (a :: t).isPrefixOf (a :: (t ++ rest)) = true := by
      have h := isPrefixOf_append_self (a :: t) rest
      rwa [List.cons_append] at h
    simp [hpre, List.drop_left]

/-- Helper: `takeWhile (≠ quote)` on a quote-free list followed by a quote
returns exactly that list. -/
theorem takeWhile_append_quote (cl R : List Char)
    (hq : ∀ ch ∈ cl, (ch != quoteChar) = true) :
    (cl ++ quoteChar :: R).takeWhile (fun ch => ch != quoteChar) = cl := by
  induction cl with
  | nil => simp [List.takeWhile_cons]
  | cons a t ih =>
    have ha := hq a (List.mem_cons_self a t)
    simp [List.takeWhile_cons, ha,
      ih (fun ch hch => hq ch (List.mem_cons_of_mem a hch))]

/-- Helper: `dropWhile (≠ quote)` on a quote-free list followed by a quote
returns the quote and what follows. -/
theorem dropWhile_append_quote (cl R : List Char)
    (hq : ∀ ch ∈ cl, (ch != quoteChar) = true) :
    (cl ++ quoteChar :: R).dropWhile (fun ch => ch != quoteChar) = quoteChar :: R := by
  induction cl with
  | nil => simp [List.dropWhile_cons]
  | cons a t ih =>
    have ha := hq a (List.mem_cons_self a t)
    simp [List.dropWhile_cons, ha,
      ih (fun ch hch => hq ch (List.mem_cons_of_mem a hch))]

/-- Helper: the capture parse of a quote-free nonempty column name followed
by a quote and a ` column…` tail recovers the column name. -/
theorem parseColumnCapture_spec (cl R : List Char) (hne : cl ≠ [])
    (hq : ∀ ch ∈ cl, (ch != quoteChar) = true)
    (hR : (" column").toList.isPrefixOf R = true) :
    parseColumnCapture (cl ++ quoteChar :: R) = some (String.mk cl) := by
  have hie : cl.isEmpty = false := by
    cases cl with
    | nil => exact absurd rfl hne
    | cons a t => rfl
  have hpre : ([quoteChar] ++ (" column").toList).isPrefixOf (quoteChar :: R) = true := by
    rw [List.singleton_append]
    show (quoteChar == quoteChar && (" column").toList.isPrefixOf R) = true
    simp only [beq_self_eq_true, Bool.true_and]
    exact hR
  unfold parseColumnCapture
  simp only [takeWhile_append_quote cl R hq, dropWhile_append_quote cl R hq]
  show (if cl.isEmpty = true then none
    else if (([quoteChar] ++ (" column").toList).isPrefixOf (quoteChar :: R)) = true then
      some (String.mk cl)
    else none) = some (String.mk cl)
  rw [hie, if_neg Bool.false_ne_true, if_pos hpre]

/-- Helper: parsing the collaborator missing-column message recovers the
column name, for any nonempty quote-free column and any table name. -/
theorem extract_columnErrorMessage (c table : String)
    (hne : c.toList ≠ []) (hq : ∀ ch ∈ c.toList, (ch != quoteChar) = true) :
    extractMissingColumnFromError (some (columnErrorMessage c table)) = some c := by
  have hL : (columnErrorMessage c table).toList
      = errMarker ++ (c.toList ++ (quoteChar :: ((" column of ").toList
          ++ (quoteChar :: (table.toList
            ++ (quoteChar :: (" in the schema cache").toList)))))) := by
    show errMarker ++ c.toList ++ [quoteChar] ++ (" column of ").toList
        ++ [quoteChar] ++ table.toList ++ [quoteChar]
        ++ (" in the schema cache").toList = _
    simp [List.append_assoc]
  simp only [extractMissingColumnFromError]
  rw [hL, findMarkerSuffix_at_start errMarker _ (by decide)]
  show parseColumnCapture (c.toList ++ quoteChar :: ((" column of ").toList
    ++ (quoteChar :: (table.toList
      ++ (quoteChar :: (" in the schema cache").toList))))) = some c
  rw [parseColumnCapture_spec c.toList _ hne hq (by
    rw [show (" column of ").toList = (" column").toList ++ (" of ").toList from by decide]
    rw [List.append_assoc]
    exact isPrefixOf_append_self (" column").toList _)]
  rfl

/-- C7: for an update payload with field set `{a, b, c}` against a table
whose schema has columns `a` and `b` but lacks `c` (any realistic column
name: nonempty, quote-free), the schema-fallback update succeeds within the
attempt bound, applies exactly the fields `{a, b}`, and reports
`removed_columns = [c]` (apollo-webhook/route.ts lines 16-85). -/
theorem c7_schema_fallback (schema : List String) (table : String)
    (a b c va vb vc : String)
    (hab : a ≠ b) (ha : a ∈ schema) (hb : b ∈ schema) (hc : c ∉ schema)
    (hcne : c.toList ≠ []) (hcq : ∀ ch ∈ c.toList, (ch != quoteChar) = true) :
    updateRowWithSchemaFallback schema table [(a, va), (b, vb), (c, vc)] =
      { error := none, removedColumns := [c]
        finalUpdates := [(a, va), (b, vb)], applied := true } := by
  have hca : schema.contains a = true := by simpa using ha
  have hcb : schema.contains b = true := by simpa using hb
  have hcc : schema.contains c = false := by simpa using hc
  have hac : a ≠ c := fun h => hc (h ▸ ha)
  have hbc : b ≠ c := fun h => hc (h ▸ hb)
  have h1 : dbUpdateError schema table [(a, va), (b, vb), (c, vc)]
      = some (columnErrorMessage c table) := by
    simp [dbUpdateError, List.find?, ha, hb, hc]
  have h5 : dbUpdateError schema table [(a, va), (b, vb)] = none := by
    simp [dbUpdateError, List.find?, ha, hb]
  have hmsg := extract_columnErrorMessage c table hcne hcq
  have h3 : (([(a, va), (b, vb), (c, vc)].map Prod.fst).contains c) = true := by
    simp
  have h4 : [(a, va), (b, vb), (c, vc)].filter (fun kv => kv.1 != c)
      = [(a, va), (b, vb)] := by
    simp [List.filter_cons, hac, hbc]
  have hstep1 : ∀ n : Nat, schemaFallbackGo schema table (n + 1)
      [(a, va), (b, vb), (c, vc)] []
      = schemaFallbackGo schema table n [(a, va), (b, vb)] [c] := by
    intro n
    simp [schemaFallbackGo, h1, hmsg, h3, h4]
  have hstep2 : ∀ n : Nat, schemaFallbackGo schema table (n + 1)
      [(a, va), (b, vb)] [c]
      = { error := none, removedColumns := [c]
          finalUpdates := [(a, va), (b, vb)], applied := true } := by
    intro n
    simp [schemaFallbackGo, h5]
  unfold updateRowWithSchemaFallback
  rw [show (20 : Nat) = 19 + 1 from rfl, hstep1 19,
      show (19 : Nat) = 18 + 1 from rfl, hstep2 18]

/-- Witness for C7 at concrete columns: the table has `email` and `phone`
but no `departments`; the update is applied with exactly the two surviving
fields and `departments` reported removed. -/
theorem c7_schema_fallback_witness :
    updateRowWithSchemaFallback ["email", "phone"] "enriched_leads"
        [("email", "a@b.c"), ("phone", "+155"), ("departments", "x")] =
      { error := none, removedColumns := ["departments"]
        finalUpdates := [("email", "a@b.c"), ("phone", "+155")], applied := true } :=
  c7_schema_fallback ["email", "phone"] "enriched_leads"
    "email" "phone" "departments" "a@b.c" "+155" "x"
    (by decide) (by decide) (by decide) (by decide) (by decide) (by decide)
